import Mathlib

/-!
Verification of the tunneling and MQTT-client modules (`mqtt_tunnels.py`,
`mqtt_client.py`).

The relay engine, the tunnel-worker outer loop, broker slot allocation, the
broker-socket wait loop and the discovery watcher are embedded as executable
Lean functions; bytes are modelled as `Nat`, byte strings as `List Nat`, and
the outcomes of the external socket primitives (`recv`, `send`, `connect`,
`select`) as explicit event values fed to the step functions.
-/

namespace MqttTunnels

/-- Outcome of one `recv` call on a socket, as seen by the relay loop in
`UnixSocketTunneler.tunnel`: a successful read returning the data (possibly
empty, which Python reports for a closed peer), a `BlockingIOError` (caught
by the inner `except BlockingIOError: pass`), or any other `socket.error`
(which propagates to the outer handler). -/
inductive IoResult where
  | ok (data : List Nat)
  | wouldBlock
  | err
deriving DecidableEq

/-- Outcome of one `send` call: the transport accepted `n` bytes (Python
`send` returns the count, which may be less than the length offered), a
`BlockingIOError`, or any other `socket.error`. -/
inductive SendResult where
  | accepted (n : Nat)
  | wouldBlock
  | err
deriving DecidableEq

/-- How the relay session evolves after one socket operation: the inner
`while True` loop keeps running, exits via `break` because a zero-length
read signalled a closed peer, or exits because a `socket.error` propagated
to the outer `except socket.error` handler. -/
inductive SessionOutcome where
  | running
  | peerClosed
  | ioError
deriving DecidableEq

/-- State of one relay session inside `UnixSocketTunneler.tunnel`:
the two outbound buffers (`client_to_broker_buffer`,
`broker_to_client_buffer`, lines 82-83) plus ghost histories recording every
byte ever read from and every byte ever accepted by each socket. -/
structure RelaySt where
  client_to_broker_buffer : List Nat
  broker_to_client_buffer : List Nat
  readFromClient : List Nat
  readFromBroker : List Nat
  sentToBroker : List Nat
  sentToClient : List Nat
deriving DecidableEq

/-- Both buffers start empty (`b''`, lines 82-83) and no byte has crossed. -/
def initRelaySt : RelaySt := ⟨[], [], [], [], [], []⟩

/-- One socket operation performed by one pass of the relay loop
(lines 114-173).  The select-driven loop performs up to four such operations
per pass in a fixed order; modelling an arbitrary interleaving of the
operations covers every schedule the loop can produce. -/
inductive RelayEvent where
  | clientRecv (r : IoResult)
  | brokerRecv (r : IoResult)
  | brokerSend (r : SendResult)
  | clientSend (r : SendResult)
deriving DecidableEq

/-- Effect of one socket operation, translated from
`UnixSocketTunneler.tunnel` lines 114-173:
* `recv` returning data appends it verbatim to the opposite outbound buffer
  (`client_to_broker_buffer += data`, `broker_to_client_buffer += data`);
* `recv` returning zero bytes prints and `break`s the session (peer closed);
* `send` accepting `n` bytes trims exactly those from the head of the buffer
  (`buffer = buffer[sent:]`);
* `BlockingIOError` is passed over (`except BlockingIOError: pass`);
* any other `socket.error` leaves the loop for the outer handler. -/
def relayEventStep (s : RelaySt) (e : RelayEvent) : SessionOutcome × RelaySt :=
  match e with
  | .clientRecv (.ok []) => (.peerClosed, s)
  | .clientRecv (.ok (b :: bs)) =>
      (.running, { s with
        client_to_broker_buffer := s.client_to_broker_buffer ++ (b :: bs),
        readFromClient := s.readFromClient ++ (b :: bs) })
  | .clientRecv .wouldBlock => (.running, s)
  | .clientRecv .err => (.ioError, s)
  | .brokerRecv (.ok []) => (.peerClosed, s)
  | .brokerRecv (.ok (b :: bs)) =>
      (.running, { s with
        broker_to_client_buffer := s.broker_to_client_buffer ++ (b :: bs),
        readFromBroker := s.readFromBroker ++ (b :: bs) })
  | .brokerRecv .wouldBlock => (.running, s)
  | .brokerRecv .err => (.ioError, s)
  | .brokerSend (.accepted n) =>
      (.running, { s with
        sentToBroker := s.sentToBroker ++ s.client_to_broker_buffer.take n,
        client_to_broker_buffer := s.client_to_broker_buffer.drop n })
  | .brokerSend .wouldBlock => (.running, s)
  | .brokerSend .err => (.ioError, s)
  | .clientSend (.accepted n) =>
      (.running, { s with
        sentToClient := s.sentToClient ++ s.broker_to_client_buffer.take n,
        broker_to_client_buffer := s.broker_to_client_buffer.drop n })
  | .clientSend .wouldBlock => (.running, s)
  | .clientSend .err => (.ioError, s)

/-- Run a relay session over a sequence of socket operations; the session
stops consuming events as soon as one ends it (`break` or `socket.error`),
exactly as the inner `while True` loop does. -/
def runRelay : RelaySt → List RelayEvent → RelaySt
  | s, [] => s
  | s, e :: es =>
      if (relayEventStep s e).1 = SessionOutcome.running then
        runRelay (relayEventStep s e).2 es
      else (relayEventStep s e).2

/-- Conservation of the two byte streams: everything read from one side is
exactly what was already delivered to the other side followed by that side's
pending outbound buffer. -/
def relayInv (s : RelaySt) : Prop :=
  s.sentToBroker ++ s.client_to_broker_buffer = s.readFromClient ∧
  s.sentToClient ++ s.broker_to_client_buffer = s.readFromBroker

/-- State of one pass of the outer `while True` loop of
`UnixSocketTunneler.tunnel`: which `socket.error` site (if any) fired during
the attempt.  `sessionEnds` covers the relay loop finishing, by `break`
(zero-length read) or by a `socket.error` inside it. -/
inductive AttemptOutcome where
  | brokerSocketCreateRaises
  | clientConnectRaises
  | brokerConnectRaises
  | sessionEnds (reason : SessionOutcome)
deriving DecidableEq

/-- The two session buffers, as the locals persisting across passes of the
outer loop of `tunnel`. -/
structure TunnelBuffers where
  client_to_broker : List Nat
  broker_to_client : List Nat
deriving DecidableEq

/-- One pass of the outer `while True` loop of `tunnel` (lines 85-182).
Input: whether the local variable `client_sock` has ever been assigned in
this call of `tunnel` (it is assigned inside the `try`, line 93, and Python
locals persist across loop iterations), the current buffers, and where the
attempt ended.  Output: `none` when the pass raises out of `tunnel` and
kills the worker thread, otherwise `some` of the updated
`client_sock`-bound flag, the buffers after the `finally` block cleared
them, and the backoff `time.sleep(1)` duration.

The `finally` block (lines 177-182) runs `client_sock.close()` first: when
`client_sock` was never assigned (an exception hit before line 93 completed
on the first pass), that line itself raises `UnboundLocalError`, the rest of
the `finally` block is skipped, and the exception propagates out of
`tunnel` — the `except socket.error` handler has already run and cannot
catch it. -/
def workerIteration (clientSockBound : Bool) (bufs : TunnelBuffers)
    (a : AttemptOutcome) : Option (Bool × TunnelBuffers × Nat) :=
  match a with
  | .brokerSocketCreateRaises =>
      if clientSockBound then some (true, ⟨[], []⟩, 1) else none
  | .clientConnectRaises =>
      if clientSockBound then some (true, ⟨[], []⟩, 1) else none
  | .brokerConnectRaises => some (true, ⟨[], []⟩, 1)
  | .sessionEnds _ => some (true, ⟨[], []⟩, 1)

/-- The fixed broker-socket naming template of `tunnel`, line 95:
`f"/tmp/mqtt_msg_{self.n_socket}.sock"`. -/
def allocate_broker_socket_path (n_socket : Nat) : String :=
  "/tmp/mqtt_msg_" ++ toString n_socket ++ ".sock"

/-- The broker socket path actually connected to by `tunnel` (line 96).  It
is computed from `self.n_socket` alone; the `broker_socket_path` field the
constructor stored (the configured broker-sockets directory,
`BROKER_SOCKETS_PATH` passed by `create_msg_tunnel`) never enters the
computation. -/
def tunnel_broker_socket_path (broker_socket_path : String) (n_socket : Nat) :
    String :=
  allocate_broker_socket_path n_socket

/-- Observable condition of the just-connected client socket at one instant:
how many bytes are available to read, and whether the peer has closed its
end.  POSIX `select` reports the socket readable when either bytes are
available or the peer has closed (a `recv` would return immediately, with
`b''` in the latter case). -/
structure ClientSocketCond where
  bytesAvailable : Nat
  peerClosed : Bool
deriving DecidableEq

/-- Read-readiness of the client socket as `select.select([client_sock],
[], [])` observes it. -/
def sockReadable (c : ClientSocketCond) : Bool :=
  decide (0 < c.bytesAvailable) || c.peerClosed

/-- `select.select([client_sock], [], [])` with no timeout, over the
socket's condition at successive instants: it returns at the first readable
instant and never returns (`none`) if the socket never becomes readable. -/
def selectFirstReadable : List ClientSocketCond → Option Nat
  | [] => none
  | c :: cs =>
      if sockReadable c then some 0
      else (selectFirstReadable cs).map (· + 1)

/-- Whether `UnixSocketTunneler.__connect_to_client_socket_and_wait_for_data`
(lines 184-197) returns the socket — treating the session as live — given
the socket's condition at successive instants after the `connect` call.  The
function returns `client_sock` exactly when the no-timeout `select` call
reports it readable. -/
def connect_and_wait_for_data_returns (conds : List ClientSocketCond) : Bool :=
  (selectFirstReadable conds).isSome

/-- The whitespace characters stripped by Python `str.strip()` (the ASCII
ones, which are the only ones a `find` output can contain). -/
def isPyWhitespace (c : Char) : Bool :=
  c = ' ' || c = '\t' || c = '\n' || c = '\r' || c = '\x0b' || c = '\x0c'

/-- Python `str.strip()`: drop leading and trailing whitespace. -/
def pyStrip (s : String) : String :=
  String.mk (((s.data.dropWhile isPyWhitespace).reverse.dropWhile
    isPyWhitespace).reverse)

/-- Helper for `pySplitNewline`: scan the characters, cutting at each
newline; `acc` holds the current field reversed. -/
def splitLinesAux : List Char → List Char → List String
  | [], acc => [String.mk acc.reverse]
  | c :: cs, acc =>
      if c = '\n' then String.mk acc.reverse :: splitLinesAux cs []
      else splitLinesAux cs (c :: acc)

/-- Python `s.split("\n")`: split on every newline.  Like the Python
function, it always returns at least one field — `"".split("\n")` is
`[""]`, never `[]`. -/
def pySplitNewline (s : String) : List String :=
  splitLinesAux s.data []

/-- The listing step shared by `wait_for_broker_socket` and
`watch_msg_sockets`: `result.stdout.strip().split("\n")` applied to the
captured output of the `find` subprocess. -/
def brokerPollFiles (stdout : String) : List String :=
  pySplitNewline (pyStrip stdout)

/-- One pass of the `while True` loop of `wait_for_broker_socket`
(lines 224-232): `true` means the function returns `True` on this pass,
`false` means it sleeps one second and polls again. -/
def wait_for_broker_socket_step (stdout : String) : Bool :=
  if (brokerPollFiles stdout).length = 0 then false else true

/-- State of the `watch_msg_sockets` loop (lines 243-260): the `sockets`
set of already-seen names (modelled as a duplicate-free list) and the
`n_socket` counter (starts at 1). -/
structure WatcherState where
  sockets : List String
  n_socket : Nat
deriving DecidableEq

/-- `result.stdout.strip().split("\n")` in `watch_msg_sockets` (line 249). -/
def parsePollOutput (stdout : String) : List String :=
  pySplitNewline (pyStrip stdout)

/-- `new_files = set(files) - sockets` (line 251): the distinct listed names
not already in the discovery set. -/
def newFilesOf (st : WatcherState) (files : List String) : List String :=
  files.dedup.filter (fun f => !(decide (f ∈ st.sockets)))

/-- The `for file in new_files` loop (lines 252-257): skip the empty name,
start one tunnel thread per remaining name with the current `n_socket`, and
increment `n_socket`.  Returns the spawned (name, slot) pairs and the final
counter. -/
def spawnNewFiles : List String → Nat → List (String × Nat) × Nat
  | [], n => ([], n)
  | f :: fs, n =>
      if f = "" then spawnNewFiles fs n
      else
        ((f, n) :: (spawnNewFiles fs (n + 1)).1, (spawnNewFiles fs (n + 1)).2)

/-- `sockets.update(files)` (line 259): add every listed name (not just the
new ones) to the discovery set; nothing is ever removed. -/
def updateSockets (sockets files : List String) : List String :=
  sockets ++ files.dedup.filter (fun f => !(decide (f ∈ sockets)))

/-- One pass of the `while True` loop of `watch_msg_sockets` (lines
247-260): list, diff against the set, spawn a worker per new non-empty
name, update the set.  Returns the new state and the spawned workers. -/
def watchPollStep (st : WatcherState) (stdout : String) :
    WatcherState × List (String × Nat) :=
  let files := parsePollOutput stdout
  let nf := newFilesOf st files
  (⟨updateSockets st.sockets files, (spawnNewFiles nf st.n_socket).2⟩,
   (spawnNewFiles nf st.n_socket).1)

/-- Number of workers spawned in one pass whose client socket name is `f`. -/
def spawnCountFor (f : String) : List (String × Nat) → Nat
  | [] => 0
  | p :: ps => (if p.1 = f then 1 else 0) + spawnCountFor f ps

/-- Number of occurrences of `f` in a list of names. -/
def countOccurrences (f : String) : List String → Nat
  | [] => 0
  | g :: gs => (if g = f then 1 else 0) + countOccurrences f gs

end MqttTunnels

namespace MqttClientLib

/-- Callbacks are identified abstractly; only registry membership matters. -/
abbrev CallbackId := Nat

/-- Instances of `MqttClient` are identified abstractly. -/
abbrev InstanceId := Nat

/-- The two callback registries of `MqttClient`.  In `mqtt_client.py` they
are declared in the class body (lines 185-186: `__message_callbacks = []`,
`__connected_callbacks = []`) and no method ever assigns
`self.__message_callbacks = ...`; every access `self.__message_callbacks`
therefore resolves, by Python attribute lookup, to the single class-level
list object, and `append`, `remove` and `clear` mutate that shared object.
Hence one registry pair for the whole class, not one per instance. -/
structure MqttClassRegistries where
  message_callbacks : List CallbackId
  connected_callbacks : List CallbackId
deriving DecidableEq

/-- `MqttClient.add_message_callback` (line 291):
`self.__message_callbacks.append(callback)`.  The `self` argument is taken
but the mutated list is the class-level one. -/
def add_message_callback (r : MqttClassRegistries) (self : InstanceId)
    (cb : CallbackId) : MqttClassRegistries :=
  { r with message_callbacks := r.message_callbacks ++ [cb] }

/-- `MqttClient.add_connected_callback` (line 282):
`self.__connected_callbacks.append(callback)`. -/
def add_connected_callback (r : MqttClassRegistries) (self : InstanceId)
    (cb : CallbackId) : MqttClassRegistries :=
  { r with connected_callbacks := r.connected_callbacks ++ [cb] }

/-- `MqttClient.reset_message_callbacks` (line 300):
`self.__message_callbacks.clear()` — clears the shared class-level list. -/
def reset_message_callbacks (r : MqttClassRegistries) (self : InstanceId) :
    MqttClassRegistries :=
  { r with message_callbacks := [] }

/-- The callbacks `MqttClient.__on_message` (lines 363-364) invokes when the
instance `self` receives a decodable message: every entry of the shared
`__message_callbacks` list. -/
def on_message_callbacks_invoked (r : MqttClassRegistries)
    (self : InstanceId) : List CallbackId :=
  r.message_callbacks

/-- The callbacks `MqttClient.__on_connected` (lines 380-381) invokes when
the instance `self` connects: every entry of the shared
`__connected_callbacks` list. -/
def on_connected_callbacks_invoked (r : MqttClassRegistries)
    (self : InstanceId) : List CallbackId :=
  r.connected_callbacks

/-- The per-instance fields of `MqttClient` that `stop` touches:
whether `self.mqtt_client` is not `None`, and the `connected` and
`is_starting` flags. -/
structure MqttClientState where
  has_mqtt_client : Bool
  connected : Bool
  is_starting : Bool
deriving DecidableEq

/-- Whether the underlying `disconnect()` / `loop_stop()` / `close()` calls
inside `stop`'s `try` block raise. -/
inductive StopUnderlyingOutcome where
  | succeeds
  | raises
deriving DecidableEq

/-- `MqttClient.stop` (lines 302-316).  When `mqtt_client` is `None` the
body is skipped entirely.  Otherwise the `try` block runs the underlying
calls, the bare `except: pass` swallows any exception they raise, and the
`finally` block sets `connected = False` and `is_starting = False` on both
paths. -/
def stop (s : MqttClientState) (r : StopUnderlyingOutcome) : MqttClientState :=
  if s.has_mqtt_client then
    match r with
    | .succeeds => { s with connected := false, is_starting := false }
    | .raises => { s with connected := false, is_starting := false }
  else s

end MqttClientLib

namespace MqttTunnels

/-- Every single socket operation preserves the byte-stream conservation
invariant of the relay. -/
theorem relayInv_step (s : RelaySt) (e : RelayEvent) (h : relayInv s) :
    relayInv (relayEventStep s e).2 := by
  obtain ⟨h1, h2⟩ := h
  cases e with
  | clientRecv r =>
    cases r with
    | ok d =>
      cases d with
      | nil => exact ⟨h1, h2⟩
      | cons b bs =>
        refine ⟨?_, h2⟩
        simp only [relayEventStep]
        rw [← List.append_assoc, h1]
    | wouldBlock => exact ⟨h1, h2⟩
    | err => exact ⟨h1, h2⟩
  | brokerRecv r =>
    cases r with
    | ok d =>
      cases d with
      | nil => exact ⟨h1, h2⟩
      | cons b bs =>
        refine ⟨h1, ?_⟩
        simp only [relayEventStep]
        rw [← List.append_assoc, h2]
    | wouldBlock => exact ⟨h1, h2⟩
    | err => exact ⟨h1, h2⟩
  | brokerSend r =>
    cases r with
    | accepted n =>
      refine ⟨?_, h2⟩
      simp only [relayEventStep]
      rw [List.append_assoc, List.take_append_drop]
      exact h1
    | wouldBlock => exact ⟨h1, h2⟩
    | err => exact ⟨h1, h2⟩
  | clientSend r =>
    cases r with
    | accepted n =>
      refine ⟨h1, ?_⟩
      simp only [relayEventStep]
      rw [List.append_assoc, List.take_append_drop]
      exact h2
    | wouldBlock => exact ⟨h1, h2⟩
    | err => exact ⟨h1, h2⟩

/-- The conservation invariant holds along every run of the relay loop. -/
theorem relayInv_runRelay (evs : List RelayEvent) :
    ∀ s : RelaySt, relayInv s → relayInv (runRelay s evs) := by
  induction evs with
  | nil => intro s h; exact h
  | cons e es ih =>
    intro s h
    simp only [runRelay]
    by_cases hc : (relayEventStep s e).1 = SessionOutcome.running
    · rw [if_pos hc]
      exact ih _ (relayInv_step s e h)
    · rw [if_neg hc]
      exact relayInv_step s e h

/-- Claim C1: per-direction byte order is preserved exactly and no byte is
duplicated or lost under any sequence of reads and sends: along every run,
the bytes delivered to the broker followed by the pending
`client_to_broker_buffer` equal exactly the bytes read from the client (and
symmetrically for the other direction); whenever the buffer has fully
drained, the delivered stream equals the read stream; a read appends its
data verbatim to the opposite outbound buffer, and a send that the transport
accepts only partially removes exactly the sent bytes from the head of the
buffer, leaving the remainder intact. -/
theorem relay_preserves_byte_streams (evs : List RelayEvent) (s : RelaySt)
    (n b : Nat) (bs : List Nat) :
    ((runRelay initRelaySt evs).sentToBroker
        ++ (runRelay initRelaySt evs).client_to_broker_buffer
      = (runRelay initRelaySt evs).readFromClient
     ∧ (runRelay initRelaySt evs).sentToClient
        ++ (runRelay initRelaySt evs).broker_to_client_buffer
      = (runRelay initRelaySt evs).readFromBroker)
  ∧ ((runRelay initRelaySt evs).client_to_broker_buffer = [] →
      (runRelay initRelaySt evs).sentToBroker
        = (runRelay initRelaySt evs).readFromClient)
  ∧ (relayEventStep s (RelayEvent.clientRecv (IoResult.ok (b :: bs)))).2.client_to_broker_buffer
      = s.client_to_broker_buffer ++ (b :: bs)
  ∧ (relayEventStep s (RelayEvent.brokerSend (SendResult.accepted n))).2.client_to_broker_buffer
      = s.client_to_broker_buffer.drop n
  ∧ (relayEventStep s (RelayEvent.brokerSend (SendResult.accepted n))).2.sentToBroker
      = s.sentToBroker ++ s.client_to_broker_buffer.take n := by
  have hinv := relayInv_runRelay evs initRelaySt ⟨rfl, rfl⟩
  refine ⟨hinv, ?_, rfl, rfl, rfl⟩
  intro hnil
  have h1 := hinv.1
  rw [hnil, List.append_nil] at h1
  exact h1

/-- Witness for C1: a concrete session — the client sends three bytes, the
broker accepts two and then the rest — drains the buffer and delivers
exactly the read stream. -/
theorem relay_preserves_byte_streams_witness :
    (runRelay initRelaySt [RelayEvent.clientRecv (IoResult.ok [1, 2, 3]),
        RelayEvent.brokerSend (SendResult.accepted 2),
        RelayEvent.brokerSend (SendResult.accepted 2)]).client_to_broker_buffer
      = []
    ∧ (runRelay initRelaySt [RelayEvent.clientRecv (IoResult.ok [1, 2, 3]),
        RelayEvent.brokerSend (SendResult.accepted 2),
        RelayEvent.brokerSend (SendResult.accepted 2)]).sentToBroker
      = (runRelay initRelaySt [RelayEvent.clientRecv (IoResult.ok [1, 2, 3]),
        RelayEvent.brokerSend (SendResult.accepted 2),
        RelayEvent.brokerSend (SendResult.accepted 2)]).readFromClient :=
  ⟨by decide,
   (relay_preserves_byte_streams
      [RelayEvent.clientRecv (IoResult.ok [1, 2, 3]),
       RelayEvent.brokerSend (SendResult.accepted 2),
       RelayEvent.brokerSend (SendResult.accepted 2)]
      initRelaySt 0 0 []).2.1 (by decide)⟩

/-- Claim C2 (refuted as stated — slip in the code): a `socket.error`
raised while connecting to the client socket on the first pass of the outer
loop, before `client_sock` was ever assigned, makes the `finally` block
itself raise (`client_sock.close()` on an unassigned local) and the worker
thread dies; on every later pass the same failure is survived and the worker
loops back with cleared buffers after the one-second backoff. -/
theorem worker_dies_on_first_pass_connect_failure :
    workerIteration false ⟨[], []⟩ AttemptOutcome.clientConnectRaises = none
    ∧ workerIteration true ⟨[], []⟩ AttemptOutcome.clientConnectRaises
        = some (true, ⟨[], []⟩, 1) :=
  ⟨rfl, rfl⟩

/-- Claim C5: a zero-length read on either socket ends the relay session as
`peerClosed` (via `break`, not via the error handler); any `socket.error`
on a read or a send ends it as `ioError`; a `BlockingIOError` and a
non-empty read keep the session running; and both session-ending reasons
route the worker through TearDown — buffers cleared, one-second backoff —
and back to another attempt rather than killing it. -/
theorem relay_session_end_classification (s : RelaySt) (b : Nat)
    (bs : List Nat) (clientSockBound : Bool) (bufs : TunnelBuffers) :
    (relayEventStep s (RelayEvent.clientRecv (IoResult.ok []))).1
        = SessionOutcome.peerClosed
  ∧ (relayEventStep s (RelayEvent.brokerRecv (IoResult.ok []))).1
        = SessionOutcome.peerClosed
  ∧ (relayEventStep s (RelayEvent.clientRecv IoResult.err)).1
        = SessionOutcome.ioError
  ∧ (relayEventStep s (RelayEvent.brokerRecv IoResult.err)).1
        = SessionOutcome.ioError
  ∧ (relayEventStep s (RelayEvent.brokerSend SendResult.err)).1
        = SessionOutcome.ioError
  ∧ (relayEventStep s (RelayEvent.clientSend SendResult.err)).1
        = SessionOutcome.ioError
  ∧ (relayEventStep s (RelayEvent.clientRecv IoResult.wouldBlock)).1
        = SessionOutcome.running
  ∧ (relayEventStep s (RelayEvent.brokerRecv IoResult.wouldBlock)).1
        = SessionOutcome.running
  ∧ (relayEventStep s (RelayEvent.clientRecv (IoResult.ok (b :: bs)))).1
        = SessionOutcome.running
  ∧ (relayEventStep s (RelayEvent.brokerRecv (IoResult.ok (b :: bs)))).1
        = SessionOutcome.running
  ∧ workerIteration clientSockBound bufs
        (AttemptOutcome.sessionEnds SessionOutcome.peerClosed)
      = some (true, ⟨[], []⟩, 1)
  ∧ workerIteration clientSockBound bufs
        (AttemptOutcome.sessionEnds SessionOutcome.ioError)
      = some (true, ⟨[], []⟩, 1) :=
  ⟨rfl, rfl, rfl, rfl, rfl, rfl, rfl, rfl, rfl, rfl, rfl, rfl⟩

/-- Claim C6: the broker socket path connected to by `tunnel` is a pure
deterministic function of the slot number alone — it equals the fixed
template applied to `n_socket`, and is independent of the configured
broker-sockets directory stored in the tunneler; existence of the path is
not verified at allocation time: a failing connect at that path is just a
survivable attempt outcome handled by the retry loop. -/
theorem broker_slot_allocation_deterministic (d d' : String) (n : Nat)
    (bufs : TunnelBuffers) :
    tunnel_broker_socket_path d n = allocate_broker_socket_path n
  ∧ tunnel_broker_socket_path d n = tunnel_broker_socket_path d' n
  ∧ allocate_broker_socket_path n = "/tmp/mqtt_msg_" ++ toString n ++ ".sock"
  ∧ workerIteration true bufs AttemptOutcome.brokerConnectRaises
      = some (true, ⟨[], []⟩, 1) :=
  ⟨rfl, rfl, rfl, rfl⟩

end MqttTunnels

namespace MqttTunnels

/-- Python `split` never yields an empty list of fields. -/
theorem splitLinesAux_ne_nil (cs : List Char) :
    ∀ acc : List Char, splitLinesAux cs acc ≠ [] := by
  induction cs with
  | nil => intro acc; simp [splitLinesAux]
  | cons c cs ih =>
    intro acc
    simp only [splitLinesAux]
    by_cases h : c = '\n'
    · rw [if_pos h]; simp
    · rw [if_neg h]; exact ih _

/-- The parsed `find` output always has at least one field, even when the
subprocess printed nothing. -/
theorem brokerPollFiles_length_ne_zero (stdout : String) :
    (brokerPollFiles stdout).length ≠ 0 := by
  intro h
  exact splitLinesAux_ne_nil _ _ (List.length_eq_zero.mp h)

/-- Claim C3 (refuted as stated — slip in the code): with an empty `find`
output (no broker socket exists) the parsed file list is `[""]`, whose
length is 1, so the `len(files) == 0` test of `wait_for_broker_socket` is
false and the function returns `True` on its very first poll; indeed it
returns on the first poll for every possible output, so it never blocks
waiting for a broker socket entry. -/
theorem wait_for_broker_socket_returns_with_zero_entries :
    wait_for_broker_socket_step "" = true
    ∧ brokerPollFiles "" = [""]
    ∧ ∀ stdout : String, wait_for_broker_socket_step stdout = true := by
  refine ⟨by decide, by decide, ?_⟩
  intro stdout
  unfold wait_for_broker_socket_step
  rw [if_neg (brokerPollFiles_length_ne_zero stdout)]

/-- A name absent from a list is spawned zero times. -/
theorem countOccurrences_eq_zero (f : String) :
    ∀ l : List String, f ∉ l → countOccurrences f l = 0 := by
  intro l
  induction l with
  | nil => intro _; rfl
  | cons g gs ih =>
    intro h
    rw [List.mem_cons] at h
    push_neg at h
    simp only [countOccurrences]
    rw [if_neg (fun hg => h.1 hg.symm), ih h.2]

/-- In a duplicate-free list a member occurs exactly once. -/
theorem countOccurrences_nodup_mem (f : String) :
    ∀ l : List String, l.Nodup → f ∈ l → countOccurrences f l = 1 := by
  intro l
  induction l with
  | nil => intro _ h; simp at h
  | cons g gs ih =>
    intro hnd hmem
    rw [List.nodup_cons] at hnd
    simp only [countOccurrences]
    rcases List.mem_cons.mp hmem with h | h
    · subst h
      rw [if_pos rfl, countOccurrences_eq_zero f gs hnd.1]
    · rw [if_neg (fun hg : g = f => hnd.1 (by rw [hg]; exact h)), ih hnd.2 h]

/-- The spawn loop starts exactly one worker per occurrence of a non-empty
name in its input list. -/
theorem spawnCountFor_spawnNewFiles (f : String) (hf : ¬ f = "") :
    ∀ (l : List String) (n : Nat),
      spawnCountFor f (spawnNewFiles l n).1 = countOccurrences f l := by
  intro l
  induction l with
  | nil => intro n; rfl
  | cons g gs ih =>
    intro n
    simp only [spawnNewFiles, countOccurrences]
    by_cases hg : g = ""
    · rw [if_pos hg, if_neg (fun hgf : g = f => hf (hgf.symm.trans hg)),
        Nat.zero_add]
      exact ih n
    · rw [if_neg hg]
      dsimp only
      simp only [spawnCountFor]
      rw [ih (n + 1)]

/-- The spawn loop starts no worker for a name absent from its input. -/
theorem spawnCountFor_eq_zero (f : String) :
    ∀ (l : List String) (n : Nat),
      f ∉ l → spawnCountFor f (spawnNewFiles l n).1 = 0 := by
  intro l
  induction l with
  | nil => intro n _; rfl
  | cons g gs ih =>
    intro n h
    rw [List.mem_cons] at h
    push_neg at h
    simp only [spawnNewFiles]
    by_cases hg : g = ""
    · rw [if_pos hg]; exact ih n h.2
    · rw [if_neg hg]
      dsimp only
      simp only [spawnCountFor]
      rw [if_neg (fun hgf => h.1 hgf.symm), ih (n + 1) h.2, Nat.zero_add]

/-- `sockets.update(files)` keeps every previous member. -/
theorem mem_updateSockets_left (s files : List String) (x : String)
    (h : x ∈ s) : x ∈ updateSockets s files :=
  List.mem_append_left _ h

/-- `sockets.update(files)` contains every listed name afterwards. -/
theorem mem_updateSockets_of_mem (s files : List String) (x : String)
    (h : x ∈ files) : x ∈ updateSockets s files := by
  by_cases hx : x ∈ s
  · exact List.mem_append_left _ hx
  · refine List.mem_append_right _ ?_
    rw [List.mem_filter]
    exact ⟨List.mem_dedup.mpr h, by simp [hx]⟩

/-- The set difference computed by `new_files = set(files) - sockets`. -/
theorem mem_newFilesOf (st : WatcherState) (files : List String)
    (f : String) :
    f ∈ newFilesOf st files ↔ f ∈ files ∧ f ∉ st.sockets := by
  simp [newFilesOf, List.mem_filter, List.mem_dedup]

/-- The set of new files is duplicate-free. -/
theorem newFilesOf_nodup (st : WatcherState) (files : List String) :
    (newFilesOf st files).Nodup :=
  (List.nodup_dedup files).filter _

/-- When every listed name is already in the set, nothing is new. -/
theorem newFilesOf_eq_nil (st : WatcherState) (files : List String)
    (h : ∀ x ∈ files, x ∈ st.sockets) : newFilesOf st files = [] := by
  rw [newFilesOf, List.filter_eq_nil_iff]
  intro a ha
  simp [h a (List.mem_dedup.mp ha)]

/-- Claim C4: a name listed by a poll and not yet in the discovery set (and
non-empty, as every real file path is) gets exactly one worker spawned and
is added to the set; a second poll over an unchanged listing spawns zero
workers and leaves the slot counter alone; the set only ever grows; and a
name already in the set — rediscovered or deleted and recreated — never
gets another worker. -/
theorem discovery_spawns_exactly_once (st : WatcherState) (out f : String) :
    (f ∈ parsePollOutput out → f ∉ st.sockets → ¬ f = "" →
        spawnCountFor f (watchPollStep st out).2 = 1
        ∧ f ∈ (watchPollStep st out).1.sockets)
  ∧ (watchPollStep (watchPollStep st out).1 out).2 = []
  ∧ (watchPollStep (watchPollStep st out).1 out).1.n_socket
        = (watchPollStep st out).1.n_socket
  ∧ (∀ x, x ∈ st.sockets → x ∈ (watchPollStep st out).1.sockets)
  ∧ (f ∈ st.sockets → spawnCountFor f (watchPollStep st out).2 = 0) := by
  have hsecond :
      newFilesOf (watchPollStep st out).1 (parsePollOutput out) = [] := by
    refine newFilesOf_eq_nil _ _ (fun x hx => ?_)
    simp only [watchPollStep]
    exact mem_updateSockets_of_mem _ _ _ hx
  refine ⟨fun hmem hnot hne => ?_, ?_, ?_, fun x hx => ?_, fun hmem => ?_⟩
  · constructor
    · simp only [watchPollStep]
      rw [spawnCountFor_spawnNewFiles f hne]
      exact countOccurrences_nodup_mem f _ (newFilesOf_nodup st _)
        ((mem_newFilesOf st _ f).mpr ⟨hmem, hnot⟩)
    · simp only [watchPollStep]
      exact mem_updateSockets_of_mem _ _ _ hmem
  · show (spawnNewFiles
      (newFilesOf (watchPollStep st out).1 (parsePollOutput out)) _).1 = []
    rw [hsecond]
    rfl
  · show (spawnNewFiles
        (newFilesOf (watchPollStep st out).1 (parsePollOutput out)) _).2 = _
    rw [hsecond]
    rfl
  · simp only [watchPollStep]
    exact mem_updateSockets_left _ _ _ hx
  · simp only [watchPollStep]
    exact spawnCountFor_eq_zero f _ _
      (fun hin => ((mem_newFilesOf st _ f).mp hin).2 hmem)

/-- Witness for C4: the first poll listing `/tmp/a.sock` spawns exactly one
worker for it and records it; a state that already knows `/tmp/b.sock`
spawns none for it. -/
theorem discovery_spawns_exactly_once_witness :
    "/tmp/a.sock" ∈ parsePollOutput "/tmp/a.sock"
    ∧ spawnCountFor "/tmp/a.sock"
        (watchPollStep ⟨[], 1⟩ "/tmp/a.sock").2 = 1
    ∧ "/tmp/a.sock" ∈ (watchPollStep ⟨[], 1⟩ "/tmp/a.sock").1.sockets
    ∧ "/tmp/b.sock" ∈ (⟨["/tmp/b.sock"], 2⟩ : WatcherState).sockets
    ∧ spawnCountFor "/tmp/b.sock"
        (watchPollStep ⟨["/tmp/b.sock"], 2⟩ "/tmp/b.sock").2 = 0 :=
  ⟨by decide,
   ((discovery_spawns_exactly_once ⟨[], 1⟩ "/tmp/a.sock" "/tmp/a.sock").1
      (by decide) (by decide) (by decide)).1,
   ((discovery_spawns_exactly_once ⟨[], 1⟩ "/tmp/a.sock" "/tmp/a.sock").1
      (by decide) (by decide) (by decide)).2,
   by decide,
   (discovery_spawns_exactly_once ⟨["/tmp/b.sock"], 2⟩ "/tmp/b.sock"
      "/tmp/b.sock").2.2.2.2 (by decide)⟩

/-- Claim C8: a failed listing — missing directory, permission error — makes
the `find` subprocess print nothing to stdout, which parses exactly like an
empty directory listing: no worker is spawned, the slot counter is
unchanged, no discovery-set entry is lost, and the loop's step is total so
the next poll happens normally. -/
theorem discovery_list_failure_like_empty (st : WatcherState) :
    (watchPollStep st "").2 = []
  ∧ (watchPollStep st "").1.n_socket = st.n_socket
  ∧ (∀ x, x ∈ st.sockets → x ∈ (watchPollStep st "").1.sockets) := by
  have hnf : spawnNewFiles (newFilesOf st (parsePollOutput "")) st.n_socket
      = ([], st.n_socket) := by
    by_cases h : "" ∈ st.sockets
    · have hempty : newFilesOf st (parsePollOutput "") = [] := by
        rw [show parsePollOutput "" = [""] by decide]
        simp [newFilesOf, h]
      rw [hempty]
      rfl
    · have hblank : newFilesOf st (parsePollOutput "") = [""] := by
        rw [show parsePollOutput "" = [""] by decide]
        simp [newFilesOf, h]
      rw [hblank]
      simp [spawnNewFiles]
  refine ⟨?_, ?_, fun x hx => ?_⟩
  · show (spawnNewFiles (newFilesOf st (parsePollOutput "")) st.n_socket).1 = []
    rw [hnf]
  · show (spawnNewFiles (newFilesOf st (parsePollOutput "")) st.n_socket).2 = _
    rw [hnf]
  · simp only [watchPollStep]
    exact mem_updateSockets_left _ _ _ hx

/-- Witness for C8: a failed poll against a state that already discovered
`/tmp/a.sock` spawns nothing, keeps the counter at 2, and keeps the entry. -/
theorem discovery_list_failure_like_empty_witness :
    (watchPollStep ⟨["/tmp/a.sock"], 2⟩ "").2 = []
    ∧ (watchPollStep ⟨["/tmp/a.sock"], 2⟩ "").1.n_socket = 2
    ∧ ("/tmp/a.sock" ∈ (⟨["/tmp/a.sock"], 2⟩ : WatcherState).sockets
       ∧ "/tmp/a.sock" ∈ (watchPollStep ⟨["/tmp/a.sock"], 2⟩ "").1.sockets) :=
  ⟨(discovery_list_failure_like_empty ⟨["/tmp/a.sock"], 2⟩).1,
   (discovery_list_failure_like_empty ⟨["/tmp/a.sock"], 2⟩).2.1,
   by decide,
   (discovery_list_failure_like_empty ⟨["/tmp/a.sock"], 2⟩).2.2
     "/tmp/a.sock" (by decide)⟩

/-- Claim C7 (counterexample): a peer that opens the connection, sends
nothing, and closes makes the no-timeout `select` report the socket
readable, so the worker returns from the wait and treats the session as
live although zero bytes of readiness signal were ever sent. -/
theorem client_wait_live_without_bytes :
    connect_and_wait_for_data_returns [⟨0, true⟩] = true
    ∧ (([⟨0, true⟩] : List ClientSocketCond).all
        fun c => c.bytesAvailable == 0) = true :=
  ⟨by decide, by decide⟩

/-- Claim C7 (amended): after connecting to the client socket the worker
blocks with no timeout and proceeds exactly when the socket first becomes
readable — that is, when at least one byte has arrived or when the peer has
closed its end; while no byte has arrived and the peer stays open it never
proceeds. -/
theorem connect_wait_returns_iff_readable (conds : List ClientSocketCond) :
    connect_and_wait_for_data_returns conds = conds.any sockReadable := by
  induction conds with
  | nil => rfl
  | cons c cs ih =>
    simp only [connect_and_wait_for_data_returns, selectFirstReadable,
      List.any_cons] at ih ⊢
    cases hcb : sockReadable c with
    | true => simp
    | false => simp [ih]

end MqttTunnels

namespace MqttClientLib

/-- Claim C9: the callback registries are class-level shared state. A
callback registered through any instance `a` is among those invoked when any
other instance `b` receives a message; resetting through one instance clears
the message callbacks seen by every instance; the same sharing holds for the
connected callbacks. -/
theorem callback_registries_shared (r : MqttClassRegistries)
    (a b : InstanceId) (cb : CallbackId) :
    cb ∈ on_message_callbacks_invoked (add_message_callback r a cb) b
  ∧ on_message_callbacks_invoked
      (reset_message_callbacks (add_message_callback r a cb) a) b = []
  ∧ cb ∈ on_connected_callbacks_invoked (add_connected_callback r a cb) b := by
  refine ⟨?_, rfl, ?_⟩
  · simp [on_message_callbacks_invoked, add_message_callback]
  · simp [on_connected_callbacks_invoked, add_connected_callback]

/-- Claim C10: when `mqtt_client` is not `None`, `stop` always leaves
`connected = False` and `is_starting = False` — the bare `except` swallows
any exception from the underlying calls and the `finally` block resets both
flags — while leaving `mqtt_client` itself in place; when `mqtt_client` is
`None`, `stop` changes nothing. -/
theorem stop_resets_flags (s : MqttClientState) (r : StopUnderlyingOutcome) :
    (s.has_mqtt_client = true →
        (stop s r).connected = false
        ∧ (stop s r).is_starting = false
        ∧ (stop s r).has_mqtt_client = s.has_mqtt_client)
  ∧ (s.has_mqtt_client = false → stop s r = s) := by
  constructor
  · intro h
    cases r <;> simp [stop, h]
  · intro h
    cases r <;> simp [stop, h]

/-- Witness for C10: a connected, starting client with an underlying client
whose teardown raises still ends with both flags cleared; a client with no
underlying client is untouched. -/
theorem stop_resets_flags_witness :
    ((stop ⟨true, true, true⟩ StopUnderlyingOutcome.raises).connected = false
     ∧ (stop ⟨true, true, true⟩ StopUnderlyingOutcome.raises).is_starting
        = false
     ∧ (stop ⟨true, true, true⟩ StopUnderlyingOutcome.raises).has_mqtt_client
        = true)
    ∧ stop ⟨false, true, true⟩ StopUnderlyingOutcome.raises
        = ⟨false, true, true⟩ :=
  ⟨(stop_resets_flags ⟨true, true, true⟩ StopUnderlyingOutcome.raises).1 rfl,
   (stop_resets_flags ⟨false, true, true⟩ StopUnderlyingOutcome.raises).2 rfl⟩

end MqttClientLib
